import Mathlib

/-!
Shallow embedding of the verisage-x3 event processing pipeline.

The source is a Node.js service that receives signed webhooks, persists
them as Events, drives each Event through a state machine
(received → validated → transformed → synced, with failed and reversed),
schedules retries with backoff, creates Transactions for synced events,
and supports a single-shot reversal of a synced Transaction.

The repository ships two variants of `src/queues/queueManager.js`:
a synchronous variant (a temporary workaround that processes events
inline and skips the Sage X3 sync step) and a Bull-queue variant (the
full pipeline with retry scheduling).  Both are embedded below, with
`Sync` and `Bull` suffixes.  Time is modelled as an explicit `now`
parameter (milliseconds as `Nat`, ISO strings as `String`); money is
modelled as `ℚ` (JS numbers under exact division by the currency
divisor); database writes are modelled as explicit state passing; and
thrown JS errors are modelled with `Option`/`Except`.
-/

namespace VerisageX3

/-- JS `a || b` on an optional string: `undefined`, `null` and the empty
string are falsy and select the fallback. -/
def jsOrString (v : Option String) (fallback : String) : String :=
  match v with
  | some s => if s = "" then fallback else s
  | none => fallback

/-- JS `a || b` on an optional number: `undefined`, `null` and `0` are
falsy and select the fallback. -/
def jsOrRat (v : Option ℚ) (fallback : ℚ) : ℚ :=
  match v with
  | some q => if q = 0 then fallback else q
  | none => fallback

/-- Event processing status, from the `status` enum of the Event schema
(`src/models/Event.js`). -/
inductive Status
  | received
  | validated
  | transformed
  | synced
  | failed
  | reversed
deriving DecidableEq, Repr

/-- Error classes recorded on an Event, from the `errors[].type` enum of
the Event schema. -/
inductive ErrorType
  | validation
  | transformation
  | sage_api
  | business_rule
  | system
deriving DecidableEq, Repr

/-- One entry of `event.errors`. -/
structure ErrorEntry where
  etype : ErrorType
  message : String
  occurredAt : Nat
deriving DecidableEq, Repr

/-- `event.validationResult`. -/
structure ValidationResult where
  isValid : Bool
  validationErrors : List String
  validatedAt : Nat
deriving DecidableEq, Repr

/-- Result returned by a Sage X3 client call (`postInvoice` etc.):
a document reference, a document type and the raw response. -/
structure SyncResult where
  documentReference : String
  documentType : String
  response : String
deriving DecidableEq, Repr

/-- `event.syncResult` as recorded by `markAsSynced`. -/
structure SyncOutcome where
  success : Bool
  documentReference : String
  syncedAt : Nat
deriving DecidableEq, Repr

/-- One audit-log record as created by `AuditLog.logAction`
(`src/models/AuditLog.js`); only the fields the claims are about. -/
structure AuditEntry where
  action : String
  auditEventId : Option String
  auditTransactionId : Option String
  actorType : String
  resultStatus : String
  severity : String
deriving DecidableEq, Repr

/-- The Event document (`src/models/Event.js`), generic over the raw
payload type `P` and the transformed document type `D`. -/
structure Event (P D : Type) where
  eventId : String
  eventType : String
  rawPayload : P
  status : Status
  validationResult : Option ValidationResult
  transformedPayload : Option D
  syncResult : Option SyncOutcome
  errors : List ErrorEntry
  retryCount : Nat
  retryScheduledFor : Option Nat
  reversed : Bool
  reversalReason : Option String
  reversalTransactionId : Option String
  reversedAt : Option Nat
deriving DecidableEq, Repr

namespace Event

variable {P D : Type}

/-- `eventSchema.methods.markAsValidated`: sets status to `validated`
or `failed`, records the validation result, and on failure pushes a
`validation` error entry. -/
def markAsValidated (e : Event P D) (now : Nat) (isValid : Bool)
    (errs : List String) : Event P D :=
  { e with
    status := if isValid then .validated else .failed
    validationResult := some ⟨isValid, errs, now⟩
    errors :=
      if isValid then e.errors
      else e.errors ++ [⟨.validation, "Validation failed", now⟩] }

/-- `eventSchema.methods.markAsTransformed`. -/
def markAsTransformed (e : Event P D) (doc : D) : Event P D :=
  { e with status := .transformed, transformedPayload := some doc }

/-- `eventSchema.methods.markAsSynced`. -/
def markAsSynced (e : Event P D) (now : Nat) (r : SyncResult) : Event P D :=
  { e with
    status := .synced
    syncResult := some ⟨true, r.documentReference, now⟩ }

/-- `eventSchema.methods.markAsFailed`: sets status to `failed` and
pushes an error entry. -/
def markAsFailed (e : Event P D) (now : Nat) (t : ErrorType)
    (message : String) : Event P D :=
  { e with status := .failed, errors := e.errors ++ [⟨t, message, now⟩] }

/-- `eventSchema.methods.markAsReversed`. -/
def markAsReversed (e : Event P D) (now : Nat) (reason : String)
    (transactionId : String) : Event P D :=
  { e with
    reversed := true
    status := .reversed
    reversalReason := some reason
    reversalTransactionId := some transactionId
    reversedAt := some now }

/-- `eventSchema.methods.incrementRetry`: bumps `retryCount` and sets
`retryScheduledFor` to `now + delayMs`. -/
def incrementRetry (e : Event P D) (now delayMs : Nat) : Event P D :=
  { e with
    retryCount := e.retryCount + 1
    retryScheduledFor := some (now + delayMs) }

end Event

/-- `transaction.sageX3Details` (`src/models/Transaction.js`). -/
structure SageX3Details where
  documentReference : String
  documentType : String
deriving DecidableEq, Repr

/-- `transaction.reversalDetails`. -/
structure ReversalDetails where
  reason : String
  reversalDocumentReference : String
  reversedBy : String
  reversedAt : Nat
deriving DecidableEq, Repr

/-- The Transaction document (`src/models/Transaction.js`); only the
fields the claims are about. -/
structure Transaction where
  transactionId : String
  eventId : String
  eventType : String
  sageX3Details : SageX3Details
  status : String
  reversed : Bool
  reversalDetails : Option ReversalDetails
  verified : Bool
  syncedAt : Nat
deriving DecidableEq, Repr

/-- `transactionSchema.methods.markAsReversed`. -/
def Transaction.markAsReversed (t : Transaction) (now : Nat)
    (reason reversalDocRef userId : String) : Transaction :=
  { t with
    reversed := true
    status := "reversed"
    reversalDetails := some ⟨reason, reversalDocRef, userId, now⟩ }

/-- `calculateRetryDelay` (Bull variant of `src/queues/queueManager.js`):
exponential backoff `baseDelay * 2 ^ retryCount` when enabled, else the
constant `baseDelay`. -/
def calculateRetryDelay (baseDelay : Nat) (useExponential : Bool)
    (retryCount : Nat) : Nat :=
  if useExponential then baseDelay * 2 ^ retryCount else baseDelay

/-- The environment the pipeline runs in: the per-event-type Joi schema
table (`src/validators/webhookSchemas.js` — `none` means no schema for
that event type; a schema returns `some errors` when the payload is
invalid, with `abortEarly: false` collecting all violations, and `none`
when valid), the transformation service dispatch, the Sage X3 client
endpoints, the retry configuration read from the process environment,
and the current wall-clock time. -/
structure PipelineEnv (P D : Type) where
  schemas : String → Option (P → Option (List String))
  transformer : String → P → Except String D
  docTypeOf : D → String
  postInvoice : D → Except String SyncResult
  postPayment : D → Except String SyncResult
  postCreditNote : D → Except String SyncResult
  postStockMovement : D → Except String SyncResult
  enableAutoRetry : Bool
  maxRetryAttempts : Nat
  retryDelayMs : Nat
  exponentialBackoff : Bool
  now : Nat

/-- Outcome of one orchestrator invocation: the final Event state, the
Transaction created (if the event synced), the audit entries emitted in
order, the delay of the retry job scheduled by the catch block (if
any), and the returned value or rethrown error. -/
structure ProcessOutcome (P D : Type) where
  event : Event P D
  transaction : Option Transaction
  audits : List AuditEntry
  scheduledRetryDelay : Option Nat
  result : Except String Status
deriving Repr

variable {P D : Type}

/-- Audit entry emitted by the pipeline steps; every step uses actor
`system`. -/
def systemAudit (action : String) (eventId : String)
    (transactionId : Option String) (resultStatus severity : String) :
    AuditEntry :=
  ⟨action, some eventId, transactionId, "system", resultStatus, severity⟩

/-- `validateEvent` (both variants of `src/queues/queueManager.js`
behave identically): looks up the Joi schema for the event type; with
no schema, marks the event failed (`validation`) and throws; on schema
errors, marks the event validated-with-failure, emits one failure audit
entry and throws; on success marks validated and emits one success
audit entry.  Returns the updated event, the audit entries emitted, and
the thrown error message if any. -/
def validateEvent (env : PipelineEnv P D) (e : Event P D) :
    Event P D × List AuditEntry × Option String :=
  match env.schemas e.eventType with
  | none =>
    let msg := "No validation schema for " ++ e.eventType
    (e.markAsFailed env.now .validation msg, [], some msg)
  | some schema =>
    match schema e.rawPayload with
    | some errs =>
      (e.markAsValidated env.now false errs,
       [systemAudit "event.validated" e.eventId none "failure" "error"],
       some ("Validation failed: " ++ String.intercalate ", " errs))
    | none =>
      (e.markAsValidated env.now true [],
       [systemAudit "event.validated" e.eventId none "success" "info"],
       none)

/-- `transformEvent`: runs the transformation service; on success marks
the event transformed and emits one success audit entry; on error marks
it failed and emits one failure audit entry, then rethrows.  The error
type pushed differs between the two variants of the file
(`transformation` in the synchronous variant, `business_rule` in the
Bull variant), so it is a parameter. -/
def transformEvent (failType : ErrorType) (env : PipelineEnv P D)
    (e : Event P D) : Event P D × List AuditEntry × Option String :=
  match env.transformer e.eventType e.rawPayload with
  | .ok doc =>
    (e.markAsTransformed doc,
     [systemAudit "event.transformed" e.eventId none "success" "info"],
     none)
  | .error msg =>
    (e.markAsFailed env.now failType msg,
     [systemAudit "event.transformed" e.eventId none "failure" "error"],
     some msg)

/-- The `switch (transformed.documentType)` dispatch inside
`syncToSageX3`: routes the document to the matching Sage X3 client
call, throwing on an unsupported document type. -/
def routeSync (env : PipelineEnv P D) (doc : D) : Except String SyncResult :=
  match env.docTypeOf doc with
  | "SI" => env.postInvoice doc
  | "PAY" => env.postPayment doc
  | "CN" => env.postCreditNote doc
  | "STK_IN" => env.postStockMovement doc
  | "STK_OUT" => env.postStockMovement doc
  | "STK_TRF" => env.postStockMovement doc
  | "STK_RET" => env.postStockMovement doc
  | dt => .error ("Unsupported document type: " ++ dt)

/-- `syncToSageX3` (Bull variant): posts the transformed payload to the
Sage X3 client; on success marks the event synced, creates a
Transaction carrying the returned document reference, and emits one
`event.synced` audit entry; on error marks the event failed
(`sage_api`), emits one `event.failed` audit entry, and rethrows.  An
absent transformed payload is the JS TypeError from reading
`transformed.documentType`, which lands in the same catch. -/
def syncToSageX3 (env : PipelineEnv P D) (e : Event P D) :
    Event P D × Option Transaction × List AuditEntry × Option String :=
  match e.transformedPayload with
  | none =>
    let msg := "Cannot read properties of undefined"
    (e.markAsFailed env.now .sage_api msg, none,
     [systemAudit "event.failed" e.eventId none "failure" "error"],
     some msg)
  | some doc =>
    match routeSync env doc with
    | .ok result =>
      let txn : Transaction :=
        { transactionId := "TXN-" ++ e.eventId
          eventId := e.eventId
          eventType := e.eventType
          sageX3Details := ⟨result.documentReference, result.documentType⟩
          status := "synced"
          reversed := false
          reversalDetails := none
          verified := false
          syncedAt := env.now }
      (e.markAsSynced env.now result, some txn,
       [systemAudit "event.synced" e.eventId (some txn.transactionId)
         "success" "info"],
       none)
    | .error msg =>
      (e.markAsFailed env.now .sage_api msg, none,
       [systemAudit "event.failed" e.eventId none "failure" "error"],
       some msg)

/-- The catch block of the Bull-variant `processEvent`: marks the event
failed with a `system` error, and when `ENABLE_AUTO_RETRY` is true and
`retryCount` is below `MAX_RETRY_ATTEMPTS`, schedules a retry
(`scheduleRetry`: computes the backoff delay from the current
`retryCount`, adds a delayed retry job, and calls `incrementRetry`);
the error is rethrown. -/
def bullCatch (env : PipelineEnv P D) (e : Event P D)
    (audits : List AuditEntry) (txn : Option Transaction) (msg : String) :
    ProcessOutcome P D :=
  let failed := e.markAsFailed env.now .system msg
  if env.enableAutoRetry ∧ failed.retryCount < env.maxRetryAttempts then
    let delay :=
      calculateRetryDelay env.retryDelayMs env.exponentialBackoff
        failed.retryCount
    { event := failed.incrementRetry env.now delay
      transaction := txn
      audits := audits
      scheduledRetryDelay := some delay
      result := .error msg }
  else
    { event := failed
      transaction := txn
      audits := audits
      scheduledRetryDelay := none
      result := .error msg }

/-- `processEvent`, Bull variant: runs validation when the status is
`received`, transformation when it is `validated`, and the Sage X3 sync
when it is `transformed`; any thrown error lands in the catch block,
which marks the event failed (`system`) and schedules a retry if
enabled.  On success returns the event's resulting status. -/
def processEventBull (env : PipelineEnv P D) (e0 : Event P D) :
    ProcessOutcome P D :=
  let s1 :=
    if e0.status = .received then validateEvent env e0 else (e0, [], none)
  match s1.2.2 with
  | some msg => bullCatch env s1.1 s1.2.1 none msg
  | none =>
    let s2 :=
      if s1.1.status = .validated then transformEvent .business_rule env s1.1
      else (s1.1, [], none)
    match s2.2.2 with
    | some msg => bullCatch env s2.1 (s1.2.1 ++ s2.2.1) none msg
    | none =>
      if s2.1.status = .transformed then
        let s3 := syncToSageX3 env s2.1
        match s3.2.2.2 with
        | some msg =>
          bullCatch env s3.1 (s1.2.1 ++ s2.2.1 ++ s3.2.2.1) s3.2.1 msg
        | none =>
          { event := s3.1
            transaction := s3.2.1
            audits := s1.2.1 ++ s2.2.1 ++ s3.2.2.1
            scheduledRetryDelay := none
            result := .ok s3.1.status }
      else
        { event := s2.1
          transaction := none
          audits := s1.2.1 ++ s2.2.1
          scheduledRetryDelay := none
          result := .ok s2.1.status }

/-- The catch block of the synchronous-variant `processEvent`: marks
the event failed with a `system` error and rethrows; no audit entry is
emitted and no retry is scheduled. -/
def syncCatch (env : PipelineEnv P D) (e : Event P D)
    (audits : List AuditEntry) (msg : String) : ProcessOutcome P D :=
  { event := e.markAsFailed env.now .system msg
    transaction := none
    audits := audits
    scheduledRetryDelay := none
    result := .error msg }

/-- `processEvent`, synchronous variant (the temporary no-Redis
workaround): same validation and transformation steps, but the Sage X3
sync step is commented out, the transformation failure error type is
`transformation`, and the catch block never schedules a retry. -/
def processEventSync (env : PipelineEnv P D) (e0 : Event P D) :
    ProcessOutcome P D :=
  let s1 :=
    if e0.status = .received then validateEvent env e0 else (e0, [], none)
  match s1.2.2 with
  | some msg => syncCatch env s1.1 s1.2.1 msg
  | none =>
    let s2 :=
      if s1.1.status = .validated then transformEvent .transformation env s1.1
      else (s1.1, [], none)
    match s2.2.2 with
    | some msg => syncCatch env s2.1 (s1.2.1 ++ s2.2.1) msg
    | none =>
      { event := s2.1
        transaction := none
        audits := s1.2.1 ++ s2.2.1
        scheduledRetryDelay := none
        result := .ok s2.1.status }

/-- The status the Bull-variant `retryFailedEvent` resets an event to:
`transformed` when a transformed payload exists, else `validated` when
validation succeeded, else `received`. -/
def resumeStatus (e : Event P D) : Status :=
  if e.transformedPayload.isSome then .transformed
  else if (e.validationResult.map (·.isValid)).getD false = true then
    .validated
  else .received

/-- `retryFailedEvent`, Bull variant: resets the status to the last
successful step, emits one `event.retried` audit entry, and re-invokes
`processEvent`.  Returns the reset event alongside the processing
outcome (with the retry audit entry prepended). -/
def retryFailedEventBull (env : PipelineEnv P D) (e : Event P D) :
    Event P D × ProcessOutcome P D :=
  let reset := { e with status := resumeStatus e }
  let out := processEventBull env reset
  (reset,
   { out with
      audits :=
        systemAudit "event.retried" e.eventId none "success" "info" ::
          out.audits })

/-- `retryFailedEvent`, synchronous variant (the manual retry): throws
unless the event is in `failed` status, then resets the status to
`received`, increments `retryCount`, and processes immediately; no
audit entry is emitted for the reset.  Returns the reset event
alongside the processing outcome. -/
def retryFailedEventSync (env : PipelineEnv P D) (e : Event P D) :
    Except String (Event P D × ProcessOutcome P D) :=
  if e.status = .failed then
    let reset :=
      { e with status := Status.received, retryCount := e.retryCount + 1 }
    .ok (reset, processEventSync env reset)
  else
    .error "Event is not in failed status"

/-- `generateEventId` (`src/utils/webhookHelper.js`): prefers the Svix
message id (prefixed `svix-`) for idempotency; falls back to a
payload-derived id with the current timestamp. -/
def generateEventId (eventField : String) (dataId : Option String)
    (nowMs : Nat) (svixId : Option String) : String :=
  match svixId with
  | some s => "svix-" ++ s
  | none => eventField ++ "-" ++ dataId.getD "unknown" ++ "-" ++ toString nowMs

/-- The Mongo `findOne` query inside `isDuplicateEvent`: matches an
existing event whose `eventId` equals the given id, or (when a Svix id
is supplied) equals `svix-` followed by the Svix id. -/
def dupQuery (events : List (Event P D)) (eventId : String)
    (svixId : Option String) : Option (Event P D) :=
  events.find? fun e =>
    e.eventId == eventId ||
      (match svixId with
       | some s => e.eventId == "svix-" ++ s
       | none => false)

/-- `isDuplicateEvent` (`src/utils/webhookHelper.js`): returns whether
the store lookup found an existing event; if the lookup itself throws,
the catch block returns `false` (the delivery is treated as new). -/
def isDuplicateEvent (lookup : Except String (Option (Event P D))) : Bool :=
  match lookup with
  | .error _ => false
  | .ok existing => existing.isSome

/-- The unique-index insert semantics of `eventId` in the Event schema
(`unique: true`): saving a new event fails with a duplicate-key error
when an event with the same `eventId` is already stored. -/
def saveNewEvent (events : List (Event P D)) (e : Event P D) :
    Except String (List (Event P D)) :=
  if events.any (fun x => x.eventId == e.eventId) then
    .error "E11000 duplicate key error"
  else
    .ok (events ++ [e])

/-- The persistent store the webhook route reads and writes: the events
collection and the audit-log collection. -/
structure Store (P D : Type) where
  events : List (Event P D)
  audits : List AuditEntry

/-- HTTP response of the webhook route; only status code, success flag
and message. -/
structure WebhookResponse where
  statusCode : Nat
  success : Bool
  message : String
deriving DecidableEq, Repr

/-- Outcome of one webhook delivery: the response sent, the resulting
store, and the event ids handed to `queueEvent` for processing. -/
structure HandlerOutcome (P D : Type) where
  response : WebhookResponse
  store : Store P D
  processed : List String

/-- A fresh Event as constructed by the webhook route (phase 9):
status `received`, no validation or transformation state yet. -/
def mkReceivedEvent (eventId eventType : String) (payload : P) :
    Event P D :=
  { eventId := eventId
    eventType := eventType
    rawPayload := payload
    status := .received
    validationResult := none
    transformedPayload := none
    syncResult := none
    errors := []
    retryCount := 0
    retryScheduledFor := none
    reversed := false
    reversalReason := none
    reversalTransactionId := none
    reversedAt := none }

/-- `router.post(indigo)` (the Svix-verified webhook route), from phase
7 on, after signature verification, event-type extraction and the
feature-flag check have passed: generates the event id from the Svix
message id, short-circuits with a 200 duplicate response when
`isDuplicateEvent` finds an existing event (persisting nothing and
processing nothing), and otherwise persists a `received` event, emits
one `event.received` audit entry, and hands the event to `queueEvent`
(in the synchronous queue manager this runs `processEvent`
immediately, whose outcome is applied to the store). -/
def handleIndigoWebhook (env : PipelineEnv P D) (st : Store P D)
    (svixId : String) (eventType : String) (dataId : Option String)
    (payload : P) : HandlerOutcome P D :=
  let eventId := generateEventId eventType dataId env.now (some svixId)
  if isDuplicateEvent (.ok (dupQuery st.events eventId (some svixId))) then
    { response := ⟨200, true, "Duplicate event ignored (idempotency)"⟩
      store := st
      processed := [] }
  else
    let ev : Event P D := mkReceivedEvent eventId eventType payload
    let receivedAudit : AuditEntry :=
      ⟨"event.received", some eventId, none, "webhook", "success", "info"⟩
    let out := processEventSync env ev
    { response := ⟨200, true, "Event received and queued for processing"⟩
      store :=
        { events := st.events ++ [out.event]
          audits := st.audits ++ [receivedAudit] ++ out.audits }
      processed := [eventId] }

/-- Responses of the transaction reversal route. -/
inductive ReversalResponse
  | notFound
  | alreadyReversed
  | reasonRequired
  | reversedOk (reversalDocRef : String)
  | serverError (msg : String)
deriving DecidableEq, Repr

/-- Outcome of one reversal attempt: the response, the resulting
transaction state, the original document references for which a credit
note was posted to Sage X3, and the audit entries emitted. -/
structure ReversalOutcome where
  response : ReversalResponse
  txn : Option Transaction
  creditNotesPosted : List String
  audits : List AuditEntry

/-- `router.post(transactionId/reverse)` (the transaction routes file):
404 when the transaction is missing; 400 `Transaction already reversed`
when it was reversed before (nothing else happens); 400 when no reason
is given; otherwise posts a credit note referencing the original
document through the Sage X3 client, marks the transaction reversed
with the reversal metadata, and emits one warning-severity
`transaction.reversed` audit entry.  A Sage client error is caught and
answered 500 with a failure audit entry, leaving the transaction
unreversed. -/
def reverseTransaction
    (postCreditNote : String → Except String SyncResult)
    (now : Nat) (userId : String)
    (txnOpt : Option Transaction) (reason : Option String) :
    ReversalOutcome :=
  match txnOpt with
  | none => ⟨.notFound, none, [], []⟩
  | some txn =>
    if txn.reversed then
      ⟨.alreadyReversed, some txn, [], []⟩
    else
      match reason with
      | none => ⟨.reasonRequired, some txn, [], []⟩
      | some r =>
        if r = "" then ⟨.reasonRequired, some txn, [], []⟩
        else
          match postCreditNote txn.sageX3Details.documentReference with
          | .ok result =>
            let txn' :=
              txn.markAsReversed now r result.documentReference userId
            ⟨.reversedOk result.documentReference, some txn',
             [txn.sageX3Details.documentReference],
             [⟨"transaction.reversed", some txn.eventId,
               some txn.transactionId, "user", "success", "warning"⟩]⟩
          | .error msg =>
            ⟨.serverError msg, some txn,
             [txn.sageX3Details.documentReference],
             [⟨"transaction.reversed", none, some txn.transactionId,
               "user", "failure", "error"⟩]⟩

/-! Embedding of `src/services/transformationService.js` (the first
variant of the file) for `invoice.created` payloads. -/

/-- The operator object carried in payloads. -/
structure HmsOperator where
  opId : String
  opName : String
deriving DecidableEq, Repr

/-- The consultant object optionally carried on an invoice item. -/
structure HmsConsultant where
  conId : String
  conName : String
deriving DecidableEq, Repr

/-- The variant object optionally carried on an invoice item; `sku` is
itself optional in the payload schema. -/
structure HmsVariant where
  varId : String
  varTitle : String
  varSku : Option String
deriving DecidableEq, Repr

/-- One line item of an `invoice.created` payload (`data.items[i]`). -/
structure HmsItem where
  itemId : String
  itemName : String
  quantity : ℚ
  price : ℚ
  total : Option ℚ
  itemKind : Option String
  variant : Option HmsVariant
  consultant : Option HmsConsultant
deriving DecidableEq, Repr

/-- The patient object of an invoice payload. -/
structure HmsPatient where
  patId : String
  patName : String
  mrn : String
  phoneNumber : Option String
  email : Option String
deriving DecidableEq, Repr

/-- `data` of an `invoice.created` payload. -/
structure InvoiceData where
  invId : String
  proforma : Option Bool
  timestamp : Option String
  items : List HmsItem
  patient : HmsPatient
  hmsOperator : HmsOperator
deriving DecidableEq, Repr

/-- A full `invoice.created` webhook payload. -/
structure InvoicePayload where
  event : String
  data : InvoiceData
  metadata : Option String
deriving DecidableEq, Repr

/-- One line item of the transformed Sage X3 sales-invoice document;
the conditionally-spread variant/consultant fields are `Option`s. -/
structure LineItem where
  lineNumber : Nat
  itemCode : String
  itemDescription : String
  quantity : ℚ
  unitPrice : ℚ
  lineTotal : ℚ
  lineItemId : String
  lineItemType : String
  variantId : Option String
  variantTitle : Option String
  variantSku : Option String
  consultantId : Option String
  consultantName : Option String
deriving DecidableEq, Repr

/-- The Sage X3 sales-invoice document produced by
`transformInvoiceCreated`. -/
structure InvoiceDocument where
  documentType : String
  invoiceId : String
  invoiceNumber : String
  isProforma : Bool
  invoiceDate : String
  customerReference : String
  customerName : String
  customerId : String
  customerPhone : String
  customerEmail : String
  lineItems : List LineItem
  subtotal : ℚ
  taxAmount : ℚ
  totalAmount : ℚ
  currency : String
  operatorId : String
  operatorName : String
deriving DecidableEq, Repr

/-- `convertCurrency`: divides a minor-unit amount by the configured
currency divisor (default 100). -/
def convertCurrency (divisor amount : ℚ) : ℚ :=
  amount / divisor

/-- The JS `items.map((item, index) => ...)` pattern: map with the
element index. -/
def mapWithIndexFrom (f : Nat → α → β) : Nat → List α → List β
  | _, [] => []
  | i, a :: as => f i a :: mapWithIndexFrom f (i + 1) as

/-- One output line item of `transformInvoiceCreated` (first variant):
`itemCode` is `item.variant?.sku || item.id`, `lineTotal` converts
`item.total || item.price * item.quantity`, and variant/consultant
fields are spread only when present. -/
def mkLineItem (divisor : ℚ) (index : Nat) (item : HmsItem) : LineItem :=
  { lineNumber := index + 1
    itemCode := jsOrString (item.variant.bind (·.varSku)) item.itemId
    itemDescription := item.itemName
    quantity := item.quantity
    unitPrice := convertCurrency divisor item.price
    lineTotal :=
      convertCurrency divisor (jsOrRat item.total (item.price * item.quantity))
    lineItemId := item.itemId
    lineItemType := jsOrString item.itemKind "unknown"
    variantId := item.variant.map (·.varId)
    variantTitle := item.variant.map (·.varTitle)
    variantSku := item.variant.bind (·.varSku)
    consultantId := item.consultant.map (·.conId)
    consultantName := item.consultant.map (·.conName) }

/-- `transformInvoiceCreated` (first variant of
`src/services/transformationService.js`): builds the line items,
totals them with a left fold from 0, and stamps `invoiceDate` with
`data.timestamp || new Date().toISOString()` — the payload timestamp
when present, else the current wall-clock time `now`. -/
def transformInvoiceCreated (divisor : ℚ) (now : String)
    (p : InvoicePayload) : InvoiceDocument :=
  let lineItems := mapWithIndexFrom (mkLineItem divisor) 0 p.data.items
  let totalAmount := lineItems.foldl (fun sum it => sum + it.lineTotal) 0
  { documentType := "SI"
    invoiceId := p.data.invId
    invoiceNumber := p.data.invId
    isProforma := p.data.proforma.getD false
    invoiceDate := jsOrString p.data.timestamp now
    customerReference := p.data.patient.mrn
    customerName := p.data.patient.patName
    customerId := p.data.patient.patId
    customerPhone := jsOrString p.data.patient.phoneNumber ""
    customerEmail := jsOrString p.data.patient.email ""
    lineItems := lineItems
    subtotal := totalAmount
    taxAmount := 0
    totalAmount := totalAmount
    currency := "NGN"
    operatorId := p.data.hmsOperator.opId
    operatorName := p.data.hmsOperator.opName }

/-! Concrete instantiations used to evaluate the embedded pipeline on
specific inputs. -/

/-- A minimal pipeline environment over string payloads and documents:
no schemas, failing clients, auto-retry disabled, defaults from the
source (`MAX_RETRY_ATTEMPTS` 3, `RETRY_DELAY_MS` 5000). -/
def trivialEnv : PipelineEnv String String :=
  { schemas := fun _ => none
    transformer := fun _ _ => .error "not configured"
    docTypeOf := fun _ => "SI"
    postInvoice := fun _ => .error "not configured"
    postPayment := fun _ => .error "not configured"
    postCreditNote := fun _ => .error "not configured"
    postStockMovement := fun _ => .error "not configured"
    enableAutoRetry := false
    maxRetryAttempts := 3
    retryDelayMs := 5000
    exponentialBackoff := false
    now := 0 }

/-- Environment with auto-retry enabled and a schema that rejects every
payload (collecting one violation), as when `ENABLE_AUTO_RETRY` is
`true` and a delivery fails schema validation. -/
def envAutoRetry : PipelineEnv String String :=
  { trivialEnv with
    schemas := fun _ => some (fun _ => some ["data.patient is required"])
    enableAutoRetry := true
    now := 1000 }

/-- The same environment as `envAutoRetry` but with auto-retry
disabled. -/
def envNoRetry : PipelineEnv String String :=
  { trivialEnv with
    schemas := fun _ => some (fun _ => some ["data.patient is required"])
    enableAutoRetry := false
    now := 1000 }

/-- A freshly received string-payload event. -/
def receivedEventW : Event String String :=
  mkReceivedEvent "svix-m1" "payment.created" "raw"

/-- An already-synced event (terminal state). -/
def syncedEventW : Event String String :=
  { (mkReceivedEvent "svix-w6" "invoice.created" "raw" : Event String String) with
      status := Status.synced }

/-- A failed event whose transformation had already completed: it
carries a transformed payload and a successful validation result, with
a transient Sage API error recorded. -/
def failedTransformedEventW : Event String String :=
  { (mkReceivedEvent "svix-m3" "invoice.created" "raw" : Event String String) with
      status := Status.failed
      validationResult := some ⟨true, [], 5⟩
      transformedPayload := some "doc"
      errors := [⟨.sage_api, "timeout of 30000ms exceeded", 6⟩] }

/-- A store already holding the event with id `svix-w1`. -/
def storeW : Store String String :=
  ⟨[mkReceivedEvent "svix-w1" "invoice.created" "raw"], []⟩

/-- An already-reversed transaction with its first-reversal metadata. -/
def reversedTxnW : Transaction :=
  { transactionId := "TXN-svix-w5"
    eventId := "svix-w5"
    eventType := "invoice.created"
    sageX3Details := ⟨"SI-0001", "invoice"⟩
    status := "reversed"
    reversed := true
    reversalDetails := some ⟨"duplicate billing", "CN-0001", "admin", 500⟩
    verified := false
    syncedAt := 100 }

/-- The spec scenario invoice payload: two line items totalling 15000
minor currency units (10000 x 1 and 2500 x 2). -/
def invoicePayloadW : InvoicePayload :=
  { event := "invoice.created"
    data :=
      { invId := "INV-9"
        proforma := some false
        timestamp := some "2024-05-01T09:00:00.000Z"
        items :=
          [⟨"item-1", "Consultation", 1, 10000, none, some "service",
            none, none⟩,
           ⟨"item-2", "Paracetamol", 2, 2500, none, some "product",
            some ⟨"var-1", "500mg", some "PARA-500"⟩, none⟩]
        patient :=
          ⟨"pat-1", "Ada Obi", "MRN-123", some "certainly-not",
           some "ada@example.com"⟩
        hmsOperator := ⟨"op-1", "Front Desk"⟩ }
    metadata := none }

/-- An invoice payload carrying a captured `data.timestamp`. -/
def invoicePayloadTs : InvoicePayload :=
  { invoicePayloadW with
      data := { invoicePayloadW.data with
                  timestamp := some "2024-03-01T10:00:00.000Z" } }

/-- An invoice payload with no captured `data.timestamp`. -/
def invoicePayloadNoTs : InvoicePayload :=
  { invoicePayloadW with
      data := { invoicePayloadW.data with invId := "INV-8", timestamp := none } }

/-- Pipeline environment for the invoice scenario: the real embedded
invoice transformer with divisor 100, an accepting schema for
`invoice.created`, and a Sage client whose `postInvoice` succeeds with
the given result. -/
def invoiceEnv (nowMs : Nat) (nowStr : String) (r : SyncResult) :
    PipelineEnv InvoicePayload InvoiceDocument :=
  { schemas := fun t =>
      if t = "invoice.created" then some (fun _ => none) else none
    transformer := fun t p =>
      if t = "invoice.created" then
        .ok (transformInvoiceCreated 100 nowStr p)
      else .error ("Unsupported event type: " ++ t)
    docTypeOf := fun d => d.documentType
    postInvoice := fun _ => .ok r
    postPayment := fun _ => .error "unexpected"
    postCreditNote := fun _ => .error "unexpected"
    postStockMovement := fun _ => .error "unexpected"
    enableAutoRetry := false
    maxRetryAttempts := 3
    retryDelayMs := 5000
    exponentialBackoff := false
    now := nowMs }

/-- The received event holding the scenario invoice payload. -/
def invoiceEventW : Event InvoicePayload InvoiceDocument :=
  mkReceivedEvent "svix-m9" "invoice.created" invoicePayloadW

/-! Helper lemmas: none of the step functions touches the retry
fields; only `incrementRetry` (called from `scheduleRetry`) does. -/

lemma validateEvent_retry_fields (env : PipelineEnv P D) (e : Event P D) :
    (validateEvent env e).1.retryCount = e.retryCount ∧
    (validateEvent env e).1.retryScheduledFor = e.retryScheduledFor := by
  unfold validateEvent
  rcases h1 : env.schemas e.eventType with _ | schema
  · simp [Event.markAsFailed]
  · rcases h2 : schema e.rawPayload with _ | errs
    · simp [h2, Event.markAsValidated]
    · simp [h2, Event.markAsValidated]

lemma transformEvent_retry_fields (t : ErrorType) (env : PipelineEnv P D)
    (e : Event P D) :
    (transformEvent t env e).1.retryCount = e.retryCount ∧
    (transformEvent t env e).1.retryScheduledFor = e.retryScheduledFor := by
  unfold transformEvent
  rcases h1 : env.transformer e.eventType e.rawPayload with msg | doc
  · simp [Event.markAsFailed]
  · simp [Event.markAsTransformed]

lemma syncToSageX3_retry_fields (env : PipelineEnv P D) (e : Event P D) :
    (syncToSageX3 env e).1.retryCount = e.retryCount ∧
    (syncToSageX3 env e).1.retryScheduledFor = e.retryScheduledFor := by
  unfold syncToSageX3
  rcases h1 : e.transformedPayload with _ | doc
  · simp [Event.markAsFailed]
  · rcases h2 : routeSync env doc with msg | result
    · simp [h2, Event.markAsFailed]
    · simp [h2, Event.markAsSynced]

lemma bullCatch_no_retry_when_disabled (env : PipelineEnv P D)
    (e : Event P D) (audits : List AuditEntry) (txn : Option Transaction)
    (msg : String) (h : env.enableAutoRetry = false) :
    (bullCatch env e audits txn msg).event.retryCount = e.retryCount ∧
    (bullCatch env e audits txn msg).event.retryScheduledFor
      = e.retryScheduledFor ∧
    (bullCatch env e audits txn msg).scheduledRetryDelay = none := by
  unfold bullCatch
  simp [h, Event.markAsFailed]

lemma syncCatch_retry_fields (env : PipelineEnv P D) (e : Event P D)
    (audits : List AuditEntry) (msg : String) :
    (syncCatch env e audits msg).event.retryCount = e.retryCount ∧
    (syncCatch env e audits msg).event.retryScheduledFor
      = e.retryScheduledFor ∧
    (syncCatch env e audits msg).scheduledRetryDelay = none := by
  unfold syncCatch
  simp [Event.markAsFailed]

/- ===================================================================
   C4
   =================================================================== -/

/-- C4: for every retryCount n, the computed retry delay is
baseDelay * 2 ^ n with exponential backoff enabled and the constant
baseDelay otherwise; with baseDelay 5000 the exponential delays for
retryCount 0, 1, 2 are 5000, 10000 and 20000 milliseconds. -/
theorem calculateRetryDelay_formula :
    (∀ baseDelay n : Nat,
       calculateRetryDelay baseDelay true n = baseDelay * 2 ^ n) ∧
    (∀ baseDelay n : Nat,
       calculateRetryDelay baseDelay false n = baseDelay) ∧
    calculateRetryDelay 5000 true 0 = 5000 ∧
    calculateRetryDelay 5000 true 1 = 10000 ∧
    calculateRetryDelay 5000 true 2 = 20000 := by
  refine ⟨fun b n => rfl, fun b n => rfl, by decide, by decide, by decide⟩

/- ===================================================================
   C10
   =================================================================== -/

/-- C10: the duplicate check fails open — when the store lookup inside
isDuplicateEvent throws, the function returns false, so the delivery is
treated as new; only the unique-eventId insert can then stop a
duplicate (saving an event whose eventId already exists fails with a
duplicate-key error). -/
theorem isDuplicateEvent_fails_open :
    (∀ (P D : Type) (msg : String),
       isDuplicateEvent (P := P) (D := D) (.error msg) = false) ∧
    (∀ (P D : Type) (events : List (Event P D)) (e : Event P D),
       (∃ x ∈ events, x.eventId = e.eventId) →
         saveNewEvent events e = .error "E11000 duplicate key error") := by
  refine ⟨fun P D msg => rfl, fun P D events e h => ?_⟩
  unfold saveNewEvent
  have : events.any (fun x => x.eventId == e.eventId) = true := by
    rcases h with ⟨x, hx, hid⟩
    simp only [List.any_eq_true, beq_iff_eq]
    exact ⟨x, hx, hid⟩
  simp [this]

/-- Witness for C10 at concrete inputs. -/
theorem isDuplicateEvent_fails_open_witness :
    isDuplicateEvent (P := String) (D := String) (.error "connection lost")
        = false ∧
    saveNewEvent [mkReceivedEvent "svix-w1" "invoice.created" "raw"]
        ((mkReceivedEvent "svix-w1" "payment.created" "other" :
          Event String String))
      = .error "E11000 duplicate key error" := by
  constructor
  · exact isDuplicateEvent_fails_open.1 String String "connection lost"
  · exact isDuplicateEvent_fails_open.2 String String _ _
      ⟨mkReceivedEvent "svix-w1" "invoice.created" "raw", by simp, rfl⟩

/- ===================================================================
   C5
   =================================================================== -/

/-- C5: a second reversal attempt on an already-reversed Transaction
answers the AlreadyReversed error, posts no compensating document to
Sage X3, emits no audit entry, and leaves the Transaction — including
its reversal metadata — exactly as the first reversal left it. -/
theorem reversal_single_use
    (postCreditNote : String → Except String SyncResult)
    (now : Nat) (userId : String) (txn : Transaction)
    (reason : Option String) (h : txn.reversed = true) :
    (reverseTransaction postCreditNote now userId (some txn) reason).response
        = .alreadyReversed ∧
    (reverseTransaction postCreditNote now userId (some txn) reason).txn
        = some txn ∧
    (reverseTransaction postCreditNote now userId (some txn)
        reason).creditNotesPosted = [] ∧
    (reverseTransaction postCreditNote now userId (some txn) reason).audits
        = [] := by
  unfold reverseTransaction
  simp [h]

/-- Witness for C5: a concrete reversed transaction keeps its
first-reversal metadata on a second attempt. -/
theorem reversal_single_use_witness :
    (reverseTransaction (fun _ => .ok ⟨"CN-0002", "credit_note", "resp"⟩)
        900 "admin" (some reversedTxnW) (some "second try")).response
        = .alreadyReversed ∧
    (reverseTransaction (fun _ => .ok ⟨"CN-0002", "credit_note", "resp"⟩)
        900 "admin" (some reversedTxnW) (some "second try")).txn
        = some reversedTxnW ∧
    (reverseTransaction (fun _ => .ok ⟨"CN-0002", "credit_note", "resp"⟩)
        900 "admin" (some reversedTxnW)
        (some "second try")).creditNotesPosted = [] ∧
    (reverseTransaction (fun _ => .ok ⟨"CN-0002", "credit_note", "resp"⟩)
        900 "admin" (some reversedTxnW) (some "second try")).audits = [] :=
  reversal_single_use (fun _ => .ok ⟨"CN-0002", "credit_note", "resp"⟩)
    900 "admin" reversedTxnW (some "second try") rfl

/- ===================================================================
   C6
   =================================================================== -/

/-- C6: invoking the orchestrator on an event already in a terminal
state (synced or reversed) is a no-op in both variants: it returns the
event's current status, changes no field of the event, creates no
transaction, emits no audit entry and schedules no retry. -/
theorem processEvent_terminal_noop (env : PipelineEnv P D)
    (e : Event P D) (h : e.status = .synced ∨ e.status = .reversed) :
    processEventBull env e
        = ⟨e, none, [], none, .ok e.status⟩ ∧
    processEventSync env e
        = ⟨e, none, [], none, .ok e.status⟩ := by
  rcases h with h | h <;>
    simp [processEventBull, processEventSync, h]

/-- Witness for C6 at a concrete synced event. -/
theorem processEvent_terminal_noop_witness :
    processEventBull trivialEnv syncedEventW
        = ⟨syncedEventW, none, [], none, .ok syncedEventW.status⟩ ∧
    processEventSync trivialEnv syncedEventW
        = ⟨syncedEventW, none, [], none, .ok syncedEventW.status⟩ :=
  processEvent_terminal_noop trivialEnv syncedEventW (Or.inl rfl)

/- ===================================================================
   C2
   =================================================================== -/

lemma processEventBull_retry_fields_when_disabled (env : PipelineEnv P D)
    (e : Event P D) (h : env.enableAutoRetry = false) :
    (processEventBull env e).event.retryCount = e.retryCount ∧
    (processEventBull env e).event.retryScheduledFor = e.retryScheduledFor ∧
    (processEventBull env e).scheduledRetryDelay = none := by
  unfold processEventBull
  rcases hv : (if e.status = Status.received then validateEvent env e
      else (e, [], none)) with ⟨e1, a1, err1⟩
  have he1 : e1.retryCount = e.retryCount ∧
      e1.retryScheduledFor = e.retryScheduledFor := by
    by_cases h0 : e.status = Status.received
    · rw [if_pos h0] at hv
      have hf := validateEvent_retry_fields env e
      rw [hv] at hf
      exact hf
    · rw [if_neg h0] at hv
      cases hv
      exact ⟨rfl, rfl⟩
  cases err1 with
  | some msg =>
    simp only []
    obtain ⟨r1, r2, r3⟩ :=
      bullCatch_no_retry_when_disabled env e1 a1 none msg h
    exact ⟨r1.trans he1.1, r2.trans he1.2, r3⟩
  | none =>
    simp only []
    rcases ht : (if e1.status = Status.validated then
        transformEvent .business_rule env e1 else (e1, [], none))
      with ⟨e2, a2, err2⟩
    have he2 : e2.retryCount = e.retryCount ∧
        e2.retryScheduledFor = e.retryScheduledFor := by
      by_cases h1 : e1.status = Status.validated
      · rw [if_pos h1] at ht
        have hf := transformEvent_retry_fields .business_rule env e1
        rw [ht] at hf
        exact ⟨hf.1.trans he1.1, hf.2.trans he1.2⟩
      · rw [if_neg h1] at ht
        cases ht
        exact he1
    cases err2 with
    | some msg =>
      simp only []
      obtain ⟨r1, r2, r3⟩ :=
        bullCatch_no_retry_when_disabled env e2 (a1 ++ a2) none msg h
      exact ⟨r1.trans he2.1, r2.trans he2.2, r3⟩
    | none =>
      simp only []
      by_cases h2 : e2.status = Status.transformed
      · rw [if_pos h2]
        rcases hs : syncToSageX3 env e2 with ⟨e3, txn, a3, err3⟩
        have he3 : e3.retryCount = e.retryCount ∧
            e3.retryScheduledFor = e.retryScheduledFor := by
          have hf := syncToSageX3_retry_fields env e2
          rw [hs] at hf
          exact ⟨hf.1.trans he2.1, hf.2.trans he2.2⟩
        cases err3 with
        | some msg =>
          simp only []
          obtain ⟨r1, r2, r3⟩ :=
            bullCatch_no_retry_when_disabled env e3 (a1 ++ a2 ++ a3) txn msg h
          exact ⟨r1.trans he3.1, r2.trans he3.2, r3⟩
        | none => exact ⟨he3.1, he3.2, rfl⟩
      · rw [if_neg h2]
        exact ⟨he2.1, he2.2, rfl⟩

lemma processEventSync_retry_fields (env : PipelineEnv P D)
    (e : Event P D) :
    (processEventSync env e).event.retryCount = e.retryCount ∧
    (processEventSync env e).event.retryScheduledFor = e.retryScheduledFor ∧
    (processEventSync env e).scheduledRetryDelay = none := by
  unfold processEventSync
  rcases hv : (if e.status = Status.received then validateEvent env e
      else (e, [], none)) with ⟨e1, a1, err1⟩
  have he1 : e1.retryCount = e.retryCount ∧
      e1.retryScheduledFor = e.retryScheduledFor := by
    by_cases h0 : e.status = Status.received
    · rw [if_pos h0] at hv
      have hf := validateEvent_retry_fields env e
      rw [hv] at hf
      exact hf
    · rw [if_neg h0] at hv
      cases hv
      exact ⟨rfl, rfl⟩
  cases err1 with
  | some msg =>
    simp only []
    obtain ⟨r1, r2, r3⟩ := syncCatch_retry_fields env e1 a1 msg
    exact ⟨r1.trans he1.1, r2.trans he1.2, r3⟩
  | none =>
    simp only []
    rcases ht : (if e1.status = Status.validated then
        transformEvent .transformation env e1 else (e1, [], none))
      with ⟨e2, a2, err2⟩
    have he2 : e2.retryCount = e.retryCount ∧
        e2.retryScheduledFor = e.retryScheduledFor := by
      by_cases h1 : e1.status = Status.validated
      · rw [if_pos h1] at ht
        have hf := transformEvent_retry_fields .transformation env e1
        rw [ht] at hf
        exact ⟨hf.1.trans he1.1, hf.2.trans he1.2⟩
      · rw [if_neg h1] at ht
        cases ht
        exact he1
    cases err2 with
    | some msg =>
      simp only []
      obtain ⟨r1, r2, r3⟩ := syncCatch_retry_fields env e2 (a1 ++ a2) msg
      exact ⟨r1.trans he2.1, r2.trans he2.2, r3⟩
    | none => exact ⟨he2.1, he2.2, rfl⟩

/-- C2 (amended): a validation failure schedules no retry in the
synchronous pipeline (whatever the configuration), and in the Bull
pipeline whenever auto-retry is disabled — in both cases the event's
retryCount and retryScheduledFor are unchanged and no retry job is
added.  (With auto-retry enabled, the Bull catch-all schedules a retry
even for validation failures; see the counterexample.) -/
theorem validation_failure_no_retry_amended :
    (∀ (P D : Type) (env : PipelineEnv P D) (e : Event P D),
       env.enableAutoRetry = false →
       (processEventBull env e).event.retryCount = e.retryCount ∧
       (processEventBull env e).event.retryScheduledFor
           = e.retryScheduledFor ∧
       (processEventBull env e).scheduledRetryDelay = none) ∧
    (∀ (P D : Type) (env : PipelineEnv P D) (e : Event P D),
       (processEventSync env e).event.retryCount = e.retryCount ∧
       (processEventSync env e).event.retryScheduledFor
           = e.retryScheduledFor ∧
       (processEventSync env e).scheduledRetryDelay = none) :=
  ⟨fun _ _ env e h => processEventBull_retry_fields_when_disabled env e h,
   fun _ _ env e => processEventSync_retry_fields env e⟩

/-- Witness for C2 (amended) at a concrete validation failure with
auto-retry disabled. -/
theorem validation_failure_no_retry_witness :
    (processEventBull envNoRetry receivedEventW).event.retryCount
        = receivedEventW.retryCount ∧
    (processEventBull envNoRetry receivedEventW).event.retryScheduledFor
        = receivedEventW.retryScheduledFor ∧
    (processEventBull envNoRetry receivedEventW).scheduledRetryDelay
        = none :=
  validation_failure_no_retry_amended.1 String String envNoRetry
    receivedEventW rfl

/-- C2 counterexample: with ENABLE_AUTO_RETRY true, a schema-validation
failure still schedules a retry through the catch-all — the event ends
failed with a validation error recorded first, yet retryCount is 1 and
retryScheduledFor is set to now + 5000, contradicting "retryCount
stays 0 and no scheduled retry time regardless of the auto-retry
configuration". -/
theorem validation_failure_retry_counterexample :
    (processEventBull envAutoRetry receivedEventW).event.status
        = Status.failed ∧
    ((processEventBull envAutoRetry receivedEventW).event.errors.map
        (·.etype)).head? = some ErrorType.validation ∧
    (processEventBull envAutoRetry receivedEventW).event.retryCount = 1 ∧
    (processEventBull envAutoRetry receivedEventW).event.retryScheduledFor
        = some 6000 ∧
    (processEventBull envAutoRetry receivedEventW).scheduledRetryDelay
        = some 5000 :=
  ⟨rfl, rfl, rfl, rfl, rfl⟩

/- ===================================================================
   C3
   =================================================================== -/

/-- C3 (amended): the Bull-variant retry resumes from the last
successfully completed step — it resets the event to `resumeStatus`
(transformed when a transformed payload exists, else validated when
validation succeeded, else received) and re-invokes the orchestrator on
the reset event; the synchronous manual retry instead always resets a
failed event to received (incrementing retryCount) before re-invoking
the orchestrator. -/
theorem retry_resumption_amended :
    (∀ (P D : Type) (env : PipelineEnv P D) (e : Event P D),
       (retryFailedEventBull env e).1 = { e with status := resumeStatus e } ∧
       resumeStatus e
           = (if e.transformedPayload.isSome then Status.transformed
              else if (e.validationResult.map (·.isValid)).getD false
                  = true then Status.validated
              else Status.received) ∧
       (retryFailedEventBull env e).2.event
           = (processEventBull env
               { e with status := resumeStatus e }).event) ∧
    (∀ (P D : Type) (env : PipelineEnv P D) (e : Event P D),
       e.status = Status.failed →
       retryFailedEventSync env e
           = .ok ({ e with
                      status := Status.received
                      retryCount := e.retryCount + 1 },
               processEventSync env
                 { e with
                    status := Status.received
                    retryCount := e.retryCount + 1 })) := by
  refine ⟨fun P D env e => ⟨rfl, rfl, rfl⟩, fun P D env e h => ?_⟩
  unfold retryFailedEventSync
  rw [if_pos h]

/-- Witness for C3 (amended) at a concrete failed event. -/
theorem retry_resumption_amended_witness :
    retryFailedEventSync trivialEnv failedTransformedEventW
        = .ok ({ failedTransformedEventW with
                   status := Status.received,
                   retryCount := failedTransformedEventW.retryCount + 1 },
            processEventSync trivialEnv
              { failedTransformedEventW with
                  status := Status.received,
                  retryCount := failedTransformedEventW.retryCount + 1 }) :=
  retry_resumption_amended.2 String String trivialEnv
    failedTransformedEventW rfl

/-- C3 counterexample: the synchronous manual retry of a failed event
that already has a transformed payload resets it to received — not to
transformed — so processing does not resume from the last successfully
completed step. -/
theorem retry_resumption_counterexample :
    failedTransformedEventW.transformedPayload.isSome = true ∧
    ∃ pr, retryFailedEventSync trivialEnv failedTransformedEventW
        = .ok pr ∧
      pr.1.status = Status.received ∧ pr.1.status ≠ Status.transformed := by
  refine ⟨rfl, ⟨_, rfl, rfl, by decide⟩⟩

/- ===================================================================
   C7
   =================================================================== -/

/-- C7 (amended): the orchestrator's validation (when a schema exists
for the event type), transformation and sync steps each emit exactly
one AuditEntry, and every entry emitted references the processed
event's eventId; the missing-schema failure and the catch-all failure
paths emit none (see the counterexample). -/
theorem audit_per_step_amended :
    (∀ (P D : Type) (env : PipelineEnv P D) (e : Event P D)
       (schema : P → Option (List String)),
       env.schemas e.eventType = some schema →
       (validateEvent env e).2.1.length = 1 ∧
       ∀ a ∈ (validateEvent env e).2.1, a.auditEventId = some e.eventId) ∧
    (∀ (P D : Type) (t : ErrorType) (env : PipelineEnv P D)
       (e : Event P D),
       (transformEvent t env e).2.1.length = 1 ∧
       ∀ a ∈ (transformEvent t env e).2.1,
         a.auditEventId = some e.eventId) ∧
    (∀ (P D : Type) (env : PipelineEnv P D) (e : Event P D),
       (syncToSageX3 env e).2.2.1.length = 1 ∧
       ∀ a ∈ (syncToSageX3 env e).2.2.1,
         a.auditEventId = some e.eventId) := by
  refine ⟨fun P D env e schema h => ?_, fun P D t env e => ?_,
    fun P D env e => ?_⟩
  · unfold validateEvent
    rw [h]
    rcases h2 : schema e.rawPayload with _ | errs <;>
      simp [h2, systemAudit]
  · unfold transformEvent
    rcases h1 : env.transformer e.eventType e.rawPayload with msg | doc <;>
      simp [systemAudit]
  · unfold syncToSageX3
    rcases h1 : e.transformedPayload with _ | doc
    · simp [systemAudit]
    · rcases h2 : routeSync env doc with msg | result <;>
        simp [h2, systemAudit]

/-- Witness for C7 (amended) at a concrete event with a schema. -/
theorem audit_per_step_witness :
    (validateEvent envAutoRetry receivedEventW).2.1.length = 1 ∧
    ∀ a ∈ (validateEvent envAutoRetry receivedEventW).2.1,
      a.auditEventId = some receivedEventW.eventId :=
  audit_per_step_amended.1 String String envAutoRetry receivedEventW
    (fun _ => some ["data.patient is required"]) rfl

/-- C7 counterexample: processing a received event whose type has no
validation schema performs the transition received → failed while
emitting zero AuditEntries, contradicting "every status transition
produces exactly one AuditEntry". -/
theorem audit_per_transition_counterexample :
    receivedEventW.status = Status.received ∧
    (processEventSync trivialEnv receivedEventW).event.status
        = Status.failed ∧
    (processEventSync trivialEnv receivedEventW).audits = [] :=
  ⟨rfl, rfl, rfl⟩

/- ===================================================================
   C1
   =================================================================== -/

lemma dupQuery_isSome_of_mem {events : List (Event P D)} {x : Event P D}
    (hx : x ∈ events) {eid : String} (h : x.eventId = eid)
    (svixId : Option String) :
    (dupQuery events eid svixId).isSome = true := by
  unfold dupQuery
  rw [List.find?_isSome]
  refine ⟨x, hx, ?_⟩
  simp [h]

/-- C1: a webhook delivery whose message id maps to the eventId of an
already persisted Event short-circuits: the route answers 200 with the
duplicate-indication message, persists no second Event, appends no
audit entry, and hands nothing to the processor (no reprocessing of the
existing event). -/
theorem webhook_duplicate_short_circuit (env : PipelineEnv P D)
    (st : Store P D) (svixId eventType : String) (dataId : Option String)
    (payload : P)
    (h : ∃ x ∈ st.events,
      x.eventId = generateEventId eventType dataId env.now (some svixId)) :
    (handleIndigoWebhook env st svixId eventType dataId payload).response
        = ⟨200, true, "Duplicate event ignored (idempotency)"⟩ ∧
    (handleIndigoWebhook env st svixId eventType dataId payload).store.events
        = st.events ∧
    (handleIndigoWebhook env st svixId eventType dataId payload).store.audits
        = st.audits ∧
    (handleIndigoWebhook env st svixId eventType dataId payload).processed
        = [] := by
  obtain ⟨x, hx, hid⟩ := h
  have hdup : isDuplicateEvent
      (.ok (dupQuery st.events
        (generateEventId eventType dataId env.now (some svixId))
        (some svixId))) = true := by
    unfold isDuplicateEvent
    exact dupQuery_isSome_of_mem hx hid (some svixId)
  unfold handleIndigoWebhook
  simp [hdup]

/-- Witness for C1: redelivering the message id `w1` against a store
already holding the event `svix-w1`. -/
theorem webhook_duplicate_short_circuit_witness :
    (handleIndigoWebhook trivialEnv storeW "w1" "invoice.created" none
        "raw").response
        = ⟨200, true, "Duplicate event ignored (idempotency)"⟩ ∧
    (handleIndigoWebhook trivialEnv storeW "w1" "invoice.created" none
        "raw").store.events = storeW.events ∧
    (handleIndigoWebhook trivialEnv storeW "w1" "invoice.created" none
        "raw").store.audits = storeW.audits ∧
    (handleIndigoWebhook trivialEnv storeW "w1" "invoice.created" none
        "raw").processed = [] :=
  webhook_duplicate_short_circuit trivialEnv storeW "w1" "invoice.created"
    none "raw"
    ⟨mkReceivedEvent "svix-w1" "invoice.created" "raw", by simp [storeW], rfl⟩

/- ===================================================================
   C8
   =================================================================== -/

/-- C8 (amended): the invoice transformation is deterministic across
invocation times exactly when the payload carries a non-empty captured
`data.timestamp` — the document then reuses that timestamp and two
invocations at different wall-clock times agree; when the timestamp is
absent the transform falls back to the current time, so replays change
the document (see the counterexample). -/
theorem transform_deterministic_with_timestamp (divisor : ℚ)
    (n1 n2 : String) (p : InvoicePayload) (ts : String)
    (h : p.data.timestamp = some ts) (hne : ts ≠ "") :
    transformInvoiceCreated divisor n1 p
      = transformInvoiceCreated divisor n2 p := by
  unfold transformInvoiceCreated
  simp [jsOrString, h, hne]

/-- Witness for C8 (amended) at a concrete payload with a captured
timestamp, evaluated at two different times. -/
theorem transform_deterministic_witness :
    transformInvoiceCreated 100 "t1" invoicePayloadTs
      = transformInvoiceCreated 100 "t2" invoicePayloadTs :=
  transform_deterministic_with_timestamp 100 "t1" "t2" invoicePayloadTs
    "2024-03-01T10:00:00.000Z" rfl (by decide)

/-- C8 counterexample: transforming the same invoice payload (one with
no captured `data.timestamp`) at two different wall-clock times yields
different documents — the transformation is not deterministic in the
claimed sense because it does not reuse an originally captured receipt
timestamp. -/
theorem transform_determinism_counterexample :
    transformInvoiceCreated 100 "2024-01-01T00:00:00.000Z" invoicePayloadNoTs
      ≠ transformInvoiceCreated 100 "2024-01-02T00:00:00.000Z"
          invoicePayloadNoTs := by
  decide

/- ===================================================================
   C9
   =================================================================== -/

lemma invoice_doc_totalAmount (nowStr : String) :
    (transformInvoiceCreated 100 nowStr invoicePayloadW).totalAmount
      = 150 := by
  simp [transformInvoiceCreated, mkLineItem, mapWithIndexFrom,
    convertCurrency, jsOrRat, invoicePayloadW]
  norm_num

lemma invoice_doc_lineTotals (nowStr : String) :
    (transformInvoiceCreated 100 nowStr invoicePayloadW).lineItems.map
      (·.lineTotal) = [100, 50] := by
  simp [transformInvoiceCreated, mkLineItem, mapWithIndexFrom,
    convertCurrency, jsOrRat, invoicePayloadW]
  norm_num

/-- C9: processing the scenario invoice.created event (items totalling
15000 minor units, divisor 100) through the Bull pipeline with a
succeeding Sage client produces a transformed document whose line
totals are the item amounts divided by the divisor ([100, 50]) and
whose totalAmount is their sum 150; the event ends synced and the
created Transaction carries the document reference returned by the
external system. -/
theorem invoice_scenario (nowMs : Nat) (nowStr : String) (r : SyncResult) :
    ((processEventBull (invoiceEnv nowMs nowStr r)
        invoiceEventW).event.transformedPayload.map
        (·.totalAmount)) = some 150 ∧
    ((processEventBull (invoiceEnv nowMs nowStr r)
        invoiceEventW).event.transformedPayload.map
        (fun d => d.lineItems.map (·.lineTotal))) = some [100, 50] ∧
    (processEventBull (invoiceEnv nowMs nowStr r) invoiceEventW).event.status
        = Status.synced ∧
    ((processEventBull (invoiceEnv nowMs nowStr r)
        invoiceEventW).transaction.map
        (·.sageX3Details.documentReference)) = some r.documentReference := by
  have h : (processEventBull (invoiceEnv nowMs nowStr r)
      invoiceEventW).event.transformedPayload
      = some (transformInvoiceCreated 100 nowStr invoicePayloadW) := rfl
  refine ⟨?_, ?_, rfl, rfl⟩
  · rw [h, Option.map_some']
    exact congrArg some (invoice_doc_totalAmount nowStr)
  · rw [h, Option.map_some']
    exact congrArg some (invoice_doc_lineTotals nowStr)

end VerisageX3
